import Mathlib

/-!
Shallow embedding of `src/src/final_project_backend/src/lib.rs` — an ICP
voting canister.  The canister keeps a `StableBTreeMap<u64, Proposal>`;
callers create proposals, edit/end their own proposals, and vote once each.

Modelling decisions:
* The stable map is modelled as a function `Nat → Option Proposal` (point
  lookup `get`, upsert `insert` returning the previous value, as in
  `ic_stable_structures`).  Keys are `u64` in the source; no key arithmetic
  occurs, so `Nat` is used.
* `Principal` is an opaque blob of bytes (`List Nat`) with decidable
  equality — only equality of principals is ever used by the source.
* The `u32` tallies `approve`/`reject`/`pass` are modelled as `Nat`: no
  committed operation ever increments them (see below), so overflow
  cannot arise.  Where the width matters (the fixed 4-byte little-endian
  encoding of a `u32` in serialization) the bound `< 2^32` is explicit.
* Each `#[ic_cdk::update]` method receives the authenticated caller
  implicitly via `ic_cdk::caller()`; the model threads the caller as an
  explicit argument, per the spec's "implicit caller-identity injection"
  note.
* Operations execute serially (IC message execution); an operation is a
  function from the current store to an outcome paired with the store
  after the call.
* `edit_proposal`, `end_proposal` and `vote` read the map through an
  `if let Some(..) = p.borrow()...get(&key)` (or `borrow_mut()`)
  scrutinee.  The `Ref`/`RefMut` guard created in the scrutinee lives
  until the end of the whole `if let`, so the second `p.borrow_mut()`
  executed on the success path panics with `BorrowMutError` before the
  `insert` runs.  A panicking update call traps: it returns no value and
  the canister state is rolled back, so the store is left exactly as it
  was.  The model makes this explicit with an `Outcome.trap` result
  carrying the unchanged store; the `Ok` returns and the `insert`
  write-backs (including the `UpdateError` arms) in the source are dead
  code and are therefore not reachable in the model either.
-/

/-- An authenticated caller identity: an opaque byte blob. -/
abbrev Principal : Type := List Nat

/-- `enum Choice { Approve, Reject, Pass }` from the source. -/
inductive Choice : Type
  | Approve : Choice
  | Reject : Choice
  | Pass : Choice
deriving DecidableEq, Repr

/-- `enum VoteError` from the source. -/
inductive VoteError : Type
  | AlreadyVoted : VoteError
  | ProposalIsNotActive : VoteError
  | NoSuchProposal : VoteError
  | AccessRejected : VoteError
  | UpdateError : VoteError
deriving DecidableEq, Repr

/-- The observable outcome of one `#[ic_cdk::update]` call whose Rust
signature is `Result<(), VoteError>`: the call returns `Ok(())`, returns
`Err(e)`, or panics — on the IC a panic traps the call, no value is
returned and all state changes of the call are rolled back. -/
inductive Outcome : Type
  | ok : Outcome
  | err : VoteError → Outcome
  | trap : Outcome
deriving DecidableEq, Repr

/-- `struct Proposal` from the source: the persisted record. -/
structure Proposal : Type where
  description : String
  approve : Nat
  reject : Nat
  pass : Nat
  is_active : Bool
  voted : List Principal
  owner : Principal
deriving DecidableEq

/-- `struct CreateProposal` from the source: the caller-supplied payload of
`create_proposal` and `edit_proposal`. -/
structure CreateProposal : Type where
  description : String
  is_active : Bool
deriving DecidableEq, Repr

/-- The stable map `PROPOSAL_MAP : StableBTreeMap<u64, Proposal>`, as a
point function from keys to optionally-present records. -/
def Store : Type := Nat → Option Proposal

/-- `StableBTreeMap::get(&key)`: point lookup, no side effect. -/
def Store.get (s : Store) (key : Nat) : Option Proposal := s key

/-- `StableBTreeMap::insert(key, value)`: upsert returning the previous
value at `key` (or `None`), paired with the updated map. -/
def Store.insert (s : Store) (key : Nat) (v : Proposal) :
    Option Proposal × Store :=
  (s key, fun k => if k = key then some v else s k)

/-- `StableBTreeMap::len()`: number of keys holding a record, counted on
the finite window of keys below `n` (the real map is finite; the model's
store is a total function, so the count is taken over an explicit key
bound). -/
def Store.countBelow (s : Store) (n : Nat) : Nat :=
  (List.range n).countP (fun k => (s k).isSome)

/-- `fn get_proposal(key: u64) -> Option<Proposal>` — passthrough read. -/
def get_proposal (s : Store) (key : Nat) : Option Proposal :=
  s.get key

/-- `fn create_proposal(key, proposal) -> Option<Proposal>`: unconditional
upsert of a fresh record (zero tallies, empty voter list, owner = caller),
returning the previous record at `key` if any. -/
def create_proposal (s : Store) (caller : Principal) (key : Nat)
    (proposal : CreateProposal) : Option Proposal × Store :=
  s.insert key
    { description := proposal.description
      approve := 0
      reject := 0
      pass := 0
      is_active := proposal.is_active
      voted := []
      owner := caller }

/-- `fn edit_proposal(key, proposal) -> Result<(), VoteError>`: the
scrutinee `p.borrow().get(&key)` holds a live `Ref` for the whole
`if let`.  Key absent: `Err(NoSuchProposal)`.  Caller not the owner:
`Err(AccessRejected)`.  Otherwise the source builds the replacement
record and calls `p.borrow_mut().insert(..)`, which panics
(`BorrowMutError`) against the live `Ref`: the call traps before the
insert and the state is rolled back, so the `Ok`/`UpdateError` arms
after the insert are unreachable. -/
def edit_proposal (s : Store) (caller : Principal) (key : Nat)
    (_proposal : CreateProposal) : Outcome × Store :=
  match s.get key with
  | some old_proposal =>
    if old_proposal.owner = caller then
      (Outcome.trap, s)
    else
      (Outcome.err VoteError.AccessRejected, s)
  | none => (Outcome.err VoteError.NoSuchProposal, s)

/-- `fn end_proposal(key) -> Result<(), VoteError>`: the scrutinee
`p.borrow_mut().get(&key)` holds a live `RefMut` for the whole `if let`.
Key absent: `Err(NoSuchProposal)`.  Caller not the owner:
`Err(AccessRejected)`.  Otherwise the source flips the local copy's
`is_active` and calls the second `p.borrow_mut()`, which panics against
the live `RefMut`: the call traps before the insert, state rolled back. -/
def end_proposal (s : Store) (caller : Principal) (key : Nat) :
    Outcome × Store :=
  match s.get key with
  | some old_proposal =>
    if old_proposal.owner = caller then
      (Outcome.trap, s)
    else
      (Outcome.err VoteError.AccessRejected, s)
  | none => (Outcome.err VoteError.NoSuchProposal, s)

/-- `fn vote(key, choice) -> Result<(), VoteError>`: the scrutinee
`p.borrow_mut().get(&key)` holds a live `RefMut` for the whole `if let`.
Key absent: `Err(NoSuchProposal)`; record inactive:
`Err(ProposalIsNotActive)`; caller already in `voted`:
`Err(AlreadyVoted)`.  Otherwise the source increments the local copy's
counter for `choice`, pushes the caller, and calls the second
`p.borrow_mut()`, which panics against the live `RefMut`: the call traps
before the insert, state rolled back, so no vote is ever recorded. -/
def vote (s : Store) (caller : Principal) (key : Nat) (_choice : Choice) :
    Outcome × Store :=
  match s.get key with
  | some old_proposal =>
    if old_proposal.is_active then
      if caller ∉ old_proposal.voted then
        (Outcome.trap, s)
      else
        (Outcome.err VoteError.AlreadyVoted, s)
    else
      (Outcome.err VoteError.ProposalIsNotActive, s)
  | none => (Outcome.err VoteError.NoSuchProposal, s)

/-!
Serialization (`impl Storable for Proposal`).  The source delegates to the
Candid `Encode!`/`Decode!` macros.  The model implements the byte-level
value encoding Candid uses for this fixed record type: a constant header
(magic plus the type table, which depends only on the type, not the
value), then the field values in a fixed order — `text` as a LEB128 length
prefix followed by the code points, `nat32` as four little-endian bytes,
`bool` as one byte, `vec principal` as a LEB128 count followed by the
elements, `principal` as a LEB128 length prefix followed by the blob
bytes.  `from_bytes` is the matching sequential decoder; the source
`unwrap`s decoding failures, modelled as `Option`. -/

/-- Unsigned LEB128 encoding of a natural number. -/
def encLeb (n : Nat) : List Nat :=
  if h : n < 128 then [n]
  else (n % 128 + 128) :: encLeb (n / 128)
decreasing_by exact Nat.div_lt_self (by omega) (by omega)

/-- Unsigned LEB128 decoding: the value read and the remaining bytes. -/
def readLeb : List Nat → Option (Nat × List Nat)
  | [] => none
  | b :: rest =>
    if b < 128 then some (b, rest)
    else
      match readLeb rest with
      | some (n, r) => some (n * 128 + (b - 128), r)
      | none => none

/-- Four little-endian bytes of a `u32` value. -/
def enc32 (n : Nat) : List Nat :=
  [n % 256, n / 256 % 256, n / 256 ^ 2 % 256, n / 256 ^ 3 % 256]

/-- Read four little-endian bytes back into a `u32` value. -/
def read32 : List Nat → Option (Nat × List Nat)
  | b0 :: b1 :: b2 :: b3 :: rest =>
    some (b0 + b1 * 256 + b2 * 256 ^ 2 + b3 * 256 ^ 3, rest)
  | _ => none

/-- One byte for a `bool`. -/
def encBool (b : Bool) : List Nat :=
  [if b then 1 else 0]

/-- Read one byte back into a `bool`; any byte other than 0 or 1 is a
decoding failure. -/
def readBool : List Nat → Option (Bool × List Nat)
  | 0 :: rest => some (false, rest)
  | 1 :: rest => some (true, rest)
  | _ => none

/-- A `text` value: LEB128 length prefix, then one LEB128-encoded code
point per character. -/
def encText (s : String) : List Nat :=
  encLeb s.data.length ++ (s.data.map (fun c => encLeb c.toNat)).flatten

/-- A `principal` value: LEB128 length prefix, then the blob bytes. -/
def encPrincipal (p : Principal) : List Nat :=
  encLeb p.length ++ p

/-- Read a fixed number of items with a given item reader. -/
def readN {α : Type} (rd : List Nat → Option (α × List Nat)) :
    Nat → List Nat → Option (List α × List Nat)
  | 0, bs => some ([], bs)
  | k + 1, bs =>
    match rd bs with
    | some (a, r) =>
      match readN rd k r with
      | some (as, r2) => some (a :: as, r2)
      | none => none
    | none => none

/-- Read one code point and rebuild the character; code points outside the
valid range are a decoding failure. -/
def readChar (bs : List Nat) : Option (Char × List Nat) :=
  match readLeb bs with
  | some (n, r) =>
    if n.isValidChar then some (Char.ofNat n, r)
    else none
  | none => none

/-- Read a `text` value. -/
def readText (bs : List Nat) : Option (String × List Nat) :=
  match readLeb bs with
  | some (len, r) =>
    match readN readChar len r with
    | some (cs, r2) => some (String.mk cs, r2)
    | none => none
  | none => none

/-- Read a `principal` value. -/
def readPrincipal (bs : List Nat) : Option (Principal × List Nat) :=
  match readLeb bs with
  | some (len, r) =>
    if len ≤ r.length then some (r.take len, r.drop len)
    else none
  | none => none

/-- The constant header of an encoded `Proposal`: the magic bytes plus
the type table, which is the same for every value of the type. -/
def didlHeader : List Nat := [68, 73, 68, 76]

/-- `Storable::to_bytes` for `Proposal`: header, then the field values in
declaration order. -/
def Proposal.to_bytes (p : Proposal) : List Nat :=
  didlHeader ++ encText p.description ++ enc32 p.approve ++ enc32 p.reject ++
    enc32 p.pass ++ encBool p.is_active ++
    (encLeb p.voted.length ++ (p.voted.map encPrincipal).flatten) ++
    encPrincipal p.owner

/-- `Storable::from_bytes` for `Proposal`: strip the header, read the
fields in order, and require that no bytes remain. -/
def Proposal.from_bytes (bs : List Nat) : Option Proposal :=
  match bs with
  | 68 :: 73 :: 68 :: 76 :: r0 =>
    match readText r0 with
    | some (description, r1) =>
      match read32 r1 with
      | some (approve, r2) =>
        match read32 r2 with
        | some (reject, r3) =>
          match read32 r3 with
          | some (pass, r4) =>
            match readBool r4 with
            | some (is_active, r5) =>
              match readLeb r5 with
              | some (len, r6) =>
                match readN readPrincipal len r6 with
                | some (voted, r7) =>
                  match readPrincipal r7 with
                  | some (owner, r8) =>
                    if r8 = [] then
                      some { description := description, approve := approve,
                             reject := reject, pass := pass,
                             is_active := is_active, voted := voted,
                             owner := owner }
                    else none
                  | none => none
                | none => none
              | none => none
            | none => none
          | none => none
        | none => none
      | none => none
    | none => none
  | _ => none

/-- The tally invariant of one record: the three counters sum to the
number of entries of the voter list. -/
def tallyInv (p : Proposal) : Prop :=
  p.approve + p.reject + p.pass = p.voted.length

instance (p : Proposal) : Decidable (tallyInv p) := by
  unfold tallyInv
  infer_instance

/-- The tally invariant over a whole store: every stored record satisfies
it. -/
def storeInv (s : Store) : Prop :=
  ∀ k p, s k = some p → tallyInv p

/-! Round-trip lemmas for the individual readers. -/

theorem readLeb_encLeb (n : Nat) :
    ∀ rest, readLeb (encLeb n ++ rest) = some (n, rest) := by
  induction n using Nat.strong_induction_on with
  | _ n ih =>
    intro rest
    unfold encLeb
    split
    · next h =>
      simp [readLeb, h]
    · next h =>
      simp only [List.cons_append, readLeb, List.append_eq]
      rw [if_neg (by omega)]
      rw [ih (n / 128) (Nat.div_lt_self (by omega) (by omega)) rest]
      simp
      omega

theorem read32_enc32 (n : Nat) (hn : n < 2 ^ 32) :
    ∀ rest, read32 (enc32 n ++ rest) = some (n, rest) := by
  intro rest
  simp only [enc32, read32, List.cons_append, List.nil_append]
  congr 1
  congr 1
  omega

theorem readBool_encBool (b : Bool) :
    ∀ rest, readBool (encBool b ++ rest) = some (b, rest) := by
  intro rest
  cases b <;> rfl

theorem readChar_encChar (c : Char) :
    ∀ rest, readChar (encLeb c.toNat ++ rest) = some (c, rest) := by
  intro rest
  have hv : c.toNat.isValidChar := by
    have := c.valid
    unfold UInt32.isValidChar at this
    exact this
  simp only [readChar, readLeb_encLeb, if_pos hv, Char.ofNat_toNat]

theorem readPrincipal_encPrincipal (p : Principal) :
    ∀ rest, readPrincipal (encPrincipal p ++ rest) = some (p, rest) := by
  intro rest
  simp only [encPrincipal, List.append_assoc, readPrincipal, readLeb_encLeb]
  rw [if_pos (by simp), List.take_left, List.drop_left]

theorem readN_flatten {α : Type} (enc : α → List Nat)
    (rd : List Nat → Option (α × List Nat))
    (hrd : ∀ a rest, rd (enc a ++ rest) = some (a, rest)) :
    ∀ (as : List α) (rest : List Nat),
      readN rd as.length ((as.map enc).flatten ++ rest) = some (as, rest) := by
  intro as
  induction as with
  | nil => intro rest; simp [readN]
  | cons a as ih =>
    intro rest
    simp only [List.map_cons, List.flatten_cons, List.length_cons,
      List.append_assoc, readN, hrd, ih]

theorem readText_encText (s : String) :
    ∀ rest, readText (encText s ++ rest) = some (s, rest) := by
  intro rest
  simp only [encText, List.append_assoc, readText, readLeb_encLeb]
  rw [readN_flatten (fun c => encLeb c.toNat) readChar readChar_encChar s.data rest]

/-- C7 preparation: decoding an encoded proposal reads back every field.
The `u32` bounds on the tallies are those of the Rust field type. -/
theorem from_bytes_to_bytes (p : Proposal)
    (ha : p.approve < 2 ^ 32) (hr : p.reject < 2 ^ 32) (hp : p.pass < 2 ^ 32) :
    Proposal.from_bytes (Proposal.to_bytes p) = some p := by
  obtain ⟨description, approve, reject, pass, is_active, voted, owner⟩ := p
  simp only [Proposal.to_bytes, didlHeader, List.cons_append, List.nil_append,
    List.append_assoc]
  simp only [Proposal.from_bytes, readText_encText, read32_enc32 _ ha,
    read32_enc32 _ hr, read32_enc32 _ hp, readBool_encBool, readLeb_encLeb]
  rw [readN_flatten encPrincipal readPrincipal readPrincipal_encPrincipal voted]
  have howner := readPrincipal_encPrincipal owner []
  simp only [List.append_nil] at howner
  simp [howner]


/-! Characterization lemmas: closed forms of each operation's branches,
used by the claim theorems below. -/

theorem end_proposal_owner (s : Store) (caller : Principal) (key : Nat)
    (old : Proposal) (hget : s key = some old) (hown : old.owner = caller) :
    end_proposal s caller key = (Outcome.trap, s) := by
  simp [end_proposal, Store.get, hget, hown]

theorem edit_proposal_owner (s : Store) (caller : Principal) (key : Nat)
    (cp : CreateProposal) (old : Proposal) (hget : s key = some old)
    (hown : old.owner = caller) :
    edit_proposal s caller key cp = (Outcome.trap, s) := by
  simp [edit_proposal, Store.get, hget, hown]

theorem vote_fresh_caller (s : Store) (caller : Principal) (key : Nat)
    (old : Proposal) (choice : Choice) (hget : s key = some old)
    (ha : old.is_active = true) (hv : caller ∉ old.voted) :
    vote s caller key choice = (Outcome.trap, s) := by
  simp [vote, Store.get, hget, ha, hv]

theorem edit_proposal_snd (s : Store) (caller : Principal) (key : Nat)
    (cp : CreateProposal) : (edit_proposal s caller key cp).2 = s := by
  unfold edit_proposal Store.get
  rcases s key with _ | old
  · rfl
  · by_cases hown : old.owner = caller <;> simp [hown]

theorem end_proposal_snd (s : Store) (caller : Principal) (key : Nat) :
    (end_proposal s caller key).2 = s := by
  unfold end_proposal Store.get
  rcases s key with _ | old
  · rfl
  · by_cases hown : old.owner = caller <;> simp [hown]

theorem vote_snd (s : Store) (caller : Principal) (key : Nat)
    (choice : Choice) : (vote s caller key choice).2 = s := by
  unfold vote Store.get
  rcases s key with _ | old
  · rfl
  · by_cases ha : old.is_active
    · by_cases hv : caller ∈ old.voted <;> simp [ha, hv]
    · simp [ha]

/-- C1: `create_proposal` succeeds for every store, caller, key and
payload — there is no error path and no owner check, so an existing record
at the key (whoever owns it) is silently overwritten.  The stored record
takes `description` and `is_active` from the input, has all three tally
counters zero, an empty voter list, and the authenticated caller as owner;
the returned value is whatever the key held before (`none` if nothing). -/
theorem claim_C1_create_unconditional (s : Store) (caller : Principal)
    (key : Nat) (cp : CreateProposal) :
    (create_proposal s caller key cp).1 = s key ∧
    ∀ k, (create_proposal s caller key cp).2 k =
      if k = key then
        some { description := cp.description, approve := 0, reject := 0,
               pass := 0, is_active := cp.is_active, voted := [],
               owner := caller }
      else s k := by
  exact ⟨rfl, fun k => rfl⟩

/-- C3: the claim's "otherwise it succeeds" is false of the program.  At
a store holding an active record at key 1 with an empty voter list, a
fresh caller's vote passes all three validation checks and then the
source panics at the second `p.borrow_mut()` (the `RefMut` from the
`if let` scrutinee is still live): the call traps instead of returning
`Ok(())`, and the store is rolled back unchanged.  The error precedence
itself (NoSuchProposal > ProposalIsNotActive > AlreadyVoted) is as
claimed, but no vote ever succeeds. -/
theorem claim_C3_success_path_traps :
    vote
      (fun k => if k = 1 then
        some { description := "d", approve := 0, reject := 0, pass := 0,
               is_active := true, voted := [], owner := [7] }
        else none)
      [9] 1 Choice.Approve =
    (Outcome.trap,
      fun k => if k = 1 then
        some { description := "d", approve := 0, reject := 0, pass := 0,
               is_active := true, voted := [], owner := [7] }
        else none) := by
  rfl

/-- C4: the claim asserts a successful edit commits the replacement
record, but no `edit_proposal` ever succeeds: at a store holding a
record at key 1 owned by the caller, after the existence and ownership
checks pass, the source panics at `p.borrow_mut().insert(..)` while the
`Ref` from the `if let` scrutinee `p.borrow()` is still live — the call
traps before the insert and the store is unchanged, so the claimed
replacement of `description`/`is_active` (and the reactivation path)
never happens. -/
theorem claim_C4_edit_success_path_traps :
    edit_proposal
      (fun k => if k = 1 then
        some { description := "d", approve := 1, reject := 2, pass := 3,
               is_active := false, voted := [[5]], owner := [7] }
        else none)
      [7] 1 { description := "n", is_active := true } =
    (Outcome.trap,
      fun k => if k = 1 then
        some { description := "d", approve := 1, reject := 2, pass := 3,
               is_active := false, voted := [[5]], owner := [7] }
        else none) := by
  rfl

/-- C5: the claim asserts `end_proposal` by the owner succeeds and
commits `is_active := false`, but no `end_proposal` ever succeeds: at a
store holding an active record at key 1 owned by the caller, after the
checks pass the source panics at the second `p.borrow_mut()` (the
`RefMut` from the `if let` scrutinee is still live) — the call traps
before the insert and the record stays active. -/
theorem claim_C5_end_success_path_traps :
    end_proposal
      (fun k => if k = 1 then
        some { description := "d", approve := 1, reject := 0, pass := 0,
               is_active := true, voted := [[5]], owner := [7] }
        else none)
      [7] 1 =
    (Outcome.trap,
      fun k => if k = 1 then
        some { description := "d", approve := 1, reject := 0, pass := 0,
               is_active := true, voted := [[5]], owner := [7] }
        else none) := by
  rfl

/-- C6: on an existing record whose owner differs from the caller, both
`edit_proposal` and `end_proposal` fail with `AccessRejected` and return
the store unchanged — every key, hence every stored record and its byte
encoding, is exactly as before. -/
theorem claim_C6_non_owner_rejected (s : Store) (caller : Principal)
    (key : Nat) (pr : Proposal) (cp : CreateProposal)
    (hget : s key = some pr) (hown : pr.owner ≠ caller) :
    edit_proposal s caller key cp = (Outcome.err VoteError.AccessRejected, s) ∧
    end_proposal s caller key = (Outcome.err VoteError.AccessRejected, s) := by
  constructor <;> simp [edit_proposal, end_proposal, Store.get, hget, hown]

/-- C6 witness: a non-owner caller is rejected on a concrete store by
both operations, with the store returned as is. -/
theorem claim_C6_witness :
    edit_proposal
        (fun k => if k = 1 then
          some { description := "d", approve := 0, reject := 0, pass := 0,
                 is_active := true, voted := [], owner := [7] }
          else none)
        [8] 1 { description := "n", is_active := false } =
      (Outcome.err VoteError.AccessRejected,
        fun k => if k = 1 then
          some { description := "d", approve := 0, reject := 0, pass := 0,
                 is_active := true, voted := [], owner := [7] }
          else none) :=
  (claim_C6_non_owner_rejected _ [8] 1
    { description := "d", approve := 0, reject := 0, pass := 0,
      is_active := true, voted := [], owner := [7] }
    { description := "n", is_active := false } rfl (by simp)).1

/-! Characterization lemmas for the error branches of each operation. -/

theorem edit_proposal_none (s : Store) (caller : Principal) (key : Nat)
    (cp : CreateProposal) (hget : s key = none) :
    edit_proposal s caller key cp =
      (Outcome.err VoteError.NoSuchProposal, s) := by
  simp [edit_proposal, Store.get, hget]

theorem edit_proposal_notOwner (s : Store) (caller : Principal) (key : Nat)
    (cp : CreateProposal) (old : Proposal) (hget : s key = some old)
    (hown : old.owner ≠ caller) :
    edit_proposal s caller key cp =
      (Outcome.err VoteError.AccessRejected, s) := by
  simp [edit_proposal, Store.get, hget, hown]

theorem end_proposal_none (s : Store) (caller : Principal) (key : Nat)
    (hget : s key = none) :
    end_proposal s caller key =
      (Outcome.err VoteError.NoSuchProposal, s) := by
  simp [end_proposal, Store.get, hget]

theorem end_proposal_notOwner (s : Store) (caller : Principal) (key : Nat)
    (old : Proposal) (hget : s key = some old) (hown : old.owner ≠ caller) :
    end_proposal s caller key =
      (Outcome.err VoteError.AccessRejected, s) := by
  simp [end_proposal, Store.get, hget, hown]

theorem vote_case_none (s : Store) (caller : Principal) (key : Nat)
    (choice : Choice) (hget : s key = none) :
    vote s caller key choice =
      (Outcome.err VoteError.NoSuchProposal, s) := by
  simp [vote, Store.get, hget]

theorem vote_case_inactive (s : Store) (caller : Principal) (key : Nat)
    (old : Proposal) (choice : Choice) (hget : s key = some old)
    (ha : old.is_active = false) :
    vote s caller key choice =
      (Outcome.err VoteError.ProposalIsNotActive, s) := by
  simp [vote, Store.get, hget, ha]

theorem vote_case_already (s : Store) (caller : Principal) (key : Nat)
    (old : Proposal) (choice : Choice) (hget : s key = some old)
    (ha : old.is_active = true) (hv : caller ∈ old.voted) :
    vote s caller key choice =
      (Outcome.err VoteError.AlreadyVoted, s) := by
  simp [vote, Store.get, hget, ha, hv]

/-! Invariant-preservation helpers for C2.  `edit_proposal`,
`end_proposal` and `vote` return the store they were given in every
branch (the error branches do not write, and the would-be writes trap
with rollback before the insert), so they preserve any store predicate;
`create_proposal` writes a record with zero tallies and no voters. -/

theorem storeInv_create (s : Store) (hs : storeInv s) (caller : Principal)
    (key : Nat) (cp : CreateProposal) :
    storeInv (create_proposal s caller key cp).2 := by
  intro k p hk
  simp only [create_proposal, Store.insert] at hk
  by_cases hkey : k = key
  · rw [if_pos hkey] at hk
    cases hk
    simp [tallyInv]
  · rw [if_neg hkey] at hk
    exact hs k p hk

theorem storeInv_edit (s : Store) (hs : storeInv s) (caller : Principal)
    (key : Nat) (cp : CreateProposal) :
    storeInv (edit_proposal s caller key cp).2 := by
  rw [edit_proposal_snd s caller key cp]
  exact hs

theorem storeInv_end (s : Store) (hs : storeInv s) (caller : Principal)
    (key : Nat) : storeInv (end_proposal s caller key).2 := by
  rw [end_proposal_snd s caller key]
  exact hs

theorem storeInv_vote (s : Store) (hs : storeInv s) (caller : Principal)
    (key : Nat) (choice : Choice) : storeInv (vote s caller key choice).2 := by
  rw [vote_snd s caller key choice]
  exact hs

/-- C2: the invariant `approve + reject + pass = |voted|` holds for every
stored record after every operation: `create_proposal` stores a record
satisfying it (`0 + 0 + 0 = 0`), and for every store in which every
record satisfies it, `edit_proposal`, `end_proposal` and `vote` each
leave every stored record satisfying it.  Preservation by the latter
three is degenerate but real: their error branches return the store
untouched, and their would-be success branches trap at the second
`RefCell` borrow before the insert, with the call's state rolled back —
no operation ever commits a record that could break the invariant. -/
theorem claim_C2_tally_invariant (s : Store) (hs : storeInv s)
    (caller : Principal) (key : Nat) (cp : CreateProposal) (choice : Choice) :
    storeInv (create_proposal s caller key cp).2 ∧
    storeInv (edit_proposal s caller key cp).2 ∧
    storeInv (end_proposal s caller key).2 ∧
    storeInv (vote s caller key choice).2 :=
  ⟨storeInv_create s hs caller key cp, storeInv_edit s hs caller key cp,
    storeInv_end s hs caller key, storeInv_vote s hs caller key choice⟩

/-- C2 witness: a fresh caller votes Approve on a concrete one-record
store satisfying the invariant; the resulting store still satisfies it. -/
theorem claim_C2_witness :
    storeInv (vote
      (fun _ => some { description := "d", approve := 0, reject := 0,
                       pass := 0, is_active := true, voted := [],
                       owner := [7] })
      [9] 1 Choice.Approve).2 :=
  (claim_C2_tally_invariant _
    (fun _ p hk => by
      have h2 : some (⟨"d", 0, 0, 0, true, [], [7]⟩ : Proposal) = some p := hk
      cases h2
      decide)
    [9] 1 { description := "x", is_active := true } Choice.Approve).2.2.2

/-- C7: serialization of a `Proposal` round-trips — decoding the encoding
of any record yields a record equal in every field; the bounds on the
tallies are those of their `u32` field type. -/
theorem claim_C7_serialization_roundtrip (p : Proposal)
    (ha : p.approve < 2 ^ 32) (hr : p.reject < 2 ^ 32)
    (hp : p.pass < 2 ^ 32) :
    Proposal.from_bytes (Proposal.to_bytes p) = some p :=
  from_bytes_to_bytes p ha hr hp

/-- C7 witness: a concrete record round-trips through the encoding. -/
theorem claim_C7_witness :
    Proposal.from_bytes (Proposal.to_bytes
      { description := "v2", approve := 1, reject := 2, pass := 3,
        is_active := true, voted := [[4, 5]], owner := [6] }) =
      some { description := "v2", approve := 1, reject := 2, pass := 3,
             is_active := true, voted := [[4, 5]], owner := [6] } :=
  claim_C7_serialization_roundtrip _ (by norm_num) (by norm_num) (by norm_num)

/-- C8: the claim's mechanism is false of the program.  It asserts
`UpdateError` is unreachable because the write-back insert on a
just-read key always reports the prior value; in fact the insert is
never executed at all: on a store holding an active record at key 1
owned by `[7]`, the owner's `edit_proposal`, the owner's `end_proposal`
and a fresh caller's `vote` each pass their checks and then trap at the
second `RefCell` borrow, before any insert whose return value could be
consulted. -/
theorem claim_C8_insert_never_reached :
    (edit_proposal
      (fun k => if k = 1 then
        some { description := "d", approve := 0, reject := 0, pass := 0,
               is_active := true, voted := [], owner := [7] }
        else none)
      [7] 1 { description := "n", is_active := true }).1 = Outcome.trap ∧
    (end_proposal
      (fun k => if k = 1 then
        some { description := "d", approve := 0, reject := 0, pass := 0,
               is_active := true, voted := [], owner := [7] }
        else none)
      [7] 1).1 = Outcome.trap ∧
    (vote
      (fun k => if k = 1 then
        some { description := "d", approve := 0, reject := 0, pass := 0,
               is_active := true, voted := [], owner := [7] }
        else none)
      [9] 1 Choice.Approve).1 = Outcome.trap :=
  ⟨rfl, rfl, rfl⟩

/-- C9: the claim's "a successful vote leaves `is_active` true as it
was" (and with it "only `edit_proposal` can reactivate") is false of the
program, because no vote ever succeeds: on an inactive record a vote
fails with `ProposalIsNotActive` without writing, as claimed, but on an
active record the vote that the claim says succeeds traps at the second
`RefCell` borrow, with the store rolled back. -/
theorem claim_C9_no_successful_vote :
    vote
        (fun k => if k = 2 then
          some { description := "p", approve := 0, reject := 0, pass := 0,
                 is_active := false, voted := [], owner := [3] }
          else none)
        [8] 2 Choice.Reject =
      (Outcome.err VoteError.ProposalIsNotActive,
        fun k => if k = 2 then
          some { description := "p", approve := 0, reject := 0, pass := 0,
                 is_active := false, voted := [], owner := [3] }
          else none) ∧
    vote
        (fun k => if k = 2 then
          some { description := "p", approve := 0, reject := 0, pass := 0,
                 is_active := true, voted := [], owner := [3] }
          else none)
        [8] 2 Choice.Reject =
      (Outcome.trap,
        fun k => if k = 2 then
          some { description := "p", approve := 0, reject := 0, pass := 0,
                 is_active := true, voted := [], owner := [3] }
          else none) :=
  ⟨rfl, rfl⟩

/-- C10: each mutating operation is atomic on error — whenever
`edit_proposal`, `end_proposal` or `vote` returns an error, the store it
returns is the store it was given, every key and every field intact. -/
theorem claim_C10_error_leaves_store_unchanged (s : Store)
    (caller : Principal) (key : Nat) (cp : CreateProposal) (choice : Choice)
    (e : VoteError) :
    ((edit_proposal s caller key cp).1 = Outcome.err e →
      (edit_proposal s caller key cp).2 = s) ∧
    ((end_proposal s caller key).1 = Outcome.err e →
      (end_proposal s caller key).2 = s) ∧
    ((vote s caller key choice).1 = Outcome.err e →
      (vote s caller key choice).2 = s) :=
  ⟨fun _ => edit_proposal_snd s caller key cp,
   fun _ => end_proposal_snd s caller key,
   fun _ => vote_snd s caller key choice⟩

/-- C10 witness: on an empty concrete store all three operations fail with
`NoSuchProposal` and return the store unchanged. -/
theorem claim_C10_witness :
    (edit_proposal (fun _ => none) [1] 0
        { description := "x", is_active := true }).2 = (fun _ => none) ∧
    (end_proposal (fun _ => none) [1] 0).2 = (fun _ => none) ∧
    (vote (fun _ => none) [1] 0 Choice.Pass).2 = (fun _ => none) :=
  ⟨(claim_C10_error_leaves_store_unchanged (fun _ => none) [1] 0
      { description := "x", is_active := true } Choice.Pass
      VoteError.NoSuchProposal).1 rfl,
   (claim_C10_error_leaves_store_unchanged (fun _ => none) [1] 0
      { description := "x", is_active := true } Choice.Pass
      VoteError.NoSuchProposal).2.1 rfl,
   (claim_C10_error_leaves_store_unchanged (fun _ => none) [1] 0
      { description := "x", is_active := true } Choice.Pass
      VoteError.NoSuchProposal).2.2 rfl⟩
